import Mathlib

set_option maxRecDepth 100000

/-!
Verification of the population-analysis subsystem of the medical-research
blind-spot analyzer, embedded from `src/lib/llm.ts`.

The parsing layer models the JavaScript calls
`text.match(/LABEL.*?(\d+)%/)` followed by `parseInt(match[1])`:
the engine scans start positions left to right; at an occurrence of the
literal label it looks, on the same line (`.` does not match a newline),
for the first maximal digit run immediately followed by `'%'`; if that
fails it moves on to the next occurrence of the label; if no occurrence
succeeds the extracted value defaults to `0`.
-/

/-- Numeric value of an ASCII digit character (models what `parseInt`
does with one digit). -/
def charVal (c : Char) : Nat := c.toNat - 48

/-- One step of decimal accumulation, as `parseInt` performs over the
captured digit run. -/
def digitStep (a : Nat) (c : Char) : Nat := a * 10 + charVal c

/-- Value of a digit run, `parseInt` on the captured group `(\d+)`. -/
def digitsVal (ds : List Char) : Nat := ds.foldl digitStep 0

/-- Scanner for the tail regex `.*?(\d+)%` at a fixed start position.
The accumulator is `some a` while the scanner is inside a digit run whose
value so far is `a`, and `none` otherwise.  A newline aborts (in
JavaScript `.` does not match `'\n'`); a `'%'` directly after a digit run
succeeds with the run's value; anything else resets the run. -/
def scanAux : Option Nat → List Char → Option Nat
  | _, [] => none
  | acc, c :: rest =>
    if c = '\n' then none
    else if c.isDigit then scanAux (some (digitStep (acc.getD 0) c)) rest
    else if c = '%' then
      match acc with
      | some v => some v
      | none => scanAux none rest
    else scanAux none rest

/-- Entry point of the tail scanner: not inside a digit run initially. -/
def scanPct (cs : List Char) : Option Nat := scanAux none cs

/-- Model of `text.match(/LABEL.*?(\d+)%/)` plus `parseInt`, with the
`match ? parseInt(match[1]) : 0` default of `extractPercentage` in
`src/lib/llm.ts`: try every start position left to right; at an
occurrence of the label run the tail scanner; the first success wins,
otherwise the result is `0`. -/
def findLabelPct (label : List Char) : List Char → Nat
  | [] => 0
  | c :: rest =>
    if label.isPrefixOf (c :: rest) then
      match scanPct (List.drop label.length (c :: rest)) with
      | some v => v
      | none => findLabelPct label rest
    else findLabelPct label rest

/-- `extractPercentage` of `src/lib/llm.ts`, with the regex
`/LABEL.*?(\d+)%/` represented by its literal label part. -/
def extractPercentage (text : String) (label : String) : Nat :=
  findLabelPct label.data text.data

/-- Return type of `parseDemographicResponse`: the four category
mappings (`Record<string, number>` kept in insertion order) and the
critical findings. -/
structure DemographicBreakdown where
  age : List (String × Nat)
  gender : List (String × Nat)
  pregnancyStatus : List (String × Nat)
  geography : List (String × Nat)
  criticalFindings : List String
deriving DecidableEq

/-- `parseDemographicResponse` of `src/lib/llm.ts`, field for field:
each searched key uses the literal label of its regex; `not_specified`
(age), `not_pregnant` and `not_specified` (geography) are the constant
`0`; geography `Other` is the sum of the `South America` and `Oceania`
searches; the critical findings are the static five-element list. -/
def parseDemographicResponse (response : String) : DemographicBreakdown :=
  { age :=
      [ ("0-18", extractPercentage response "Pediatric"),
        ("18-40", extractPercentage response "Young Adults"),
        ("40-65", extractPercentage response "Middle-aged Adults"),
        ("65-75", extractPercentage response "Elderly (65-75)"),
        (">75", extractPercentage response "Very Elderly"),
        ("not_specified", 0) ],
    gender :=
      [ ("male", extractPercentage response "Male"),
        ("female", extractPercentage response "Female"),
        ("not_specified", extractPercentage response "Gender not reported") ],
    pregnancyStatus :=
      [ ("pregnant", extractPercentage response "Pregnant individuals"),
        ("not_pregnant", 0),
        ("not_specified", extractPercentage response "Pregnancy status not mentioned") ],
    geography :=
      [ ("North America", extractPercentage response "North America"),
        ("Europe", extractPercentage response "Europe"),
        ("Asia", extractPercentage response "Asia"),
        ("Africa", extractPercentage response "Africa"),
        ("Other", extractPercentage response "South America" + extractPercentage response "Oceania"),
        ("not_specified", 0) ],
    criticalFindings :=
      [ "Complete exclusion of pediatric populations",
        "Systematic exclusion of pregnant individuals",
        "Severe underrepresentation of very elderly (>75)",
        "Complete absence of African populations",
        "Geographic bias toward Western/developed nations" ] }

/-- The breakdown with every percentage `0` and the static findings:
what `parseDemographicResponse` produces when no label search hits. -/
def zeroBreakdown : DemographicBreakdown :=
  { age :=
      [ ("0-18", 0), ("18-40", 0), ("40-65", 0), ("65-75", 0), (">75", 0),
        ("not_specified", 0) ],
    gender := [ ("male", 0), ("female", 0), ("not_specified", 0) ],
    pregnancyStatus :=
      [ ("pregnant", 0), ("not_pregnant", 0), ("not_specified", 0) ],
    geography :=
      [ ("North America", 0), ("Europe", 0), ("Asia", 0), ("Africa", 0),
        ("Other", 0), ("not_specified", 0) ],
    criticalFindings :=
      [ "Complete exclusion of pediatric populations",
        "Systematic exclusion of pregnant individuals",
        "Severe underrepresentation of very elderly (>75)",
        "Complete absence of African populations",
        "Geographic bias toward Western/developed nations" ] }

/-- Value stored under a key in a category mapping (`0` if absent, which
never happens for the enumerated keys). -/
def lookupPct (m : List (String × Nat)) (k : String) : Nat :=
  match m with
  | [] => 0
  | kv :: rest => if kv.1 = k then kv.2 else lookupPct rest k

/-- Result of attempting the regex at one fixed start position `i`:
`some v` when the label occurs at `i` and the tail scan succeeds. -/
def matchOpt (label cs : List Char) (i : Nat) : Option Nat :=
  if label.isPrefixOf (cs.drop i) then
    scanPct (List.drop label.length (cs.drop i))
  else none

/-- Values of all successful matches of the regex, listed by start
position from left to right. -/
def matchResults (label cs : List Char) : List Nat :=
  (List.range cs.length).filterMap (matchOpt label cs)

/-- Response record of one model invocation (`LLMResponse` of
`src/lib/llm.ts`): raw text plus optional backend name and token count. -/
structure LLMResponse where
  content : String
  model : Option String
  tokensUsed : Option Nat
deriving DecidableEq

/-- Outcome data of a successful live invocation: the stringified
content and the two metadata locations that may carry a token count
(`usage_metadata.total_tokens`, then
`response_metadata.usage.total_tokens`). -/
structure LiveResult where
  content : String
  usageMetadataTotalTokens : Option Nat
  responseMetadataUsageTotalTokens : Option Nat
deriving DecidableEq

/-- Token extraction of the live path: the `??` chain that checks the
two metadata locations in priority order. -/
def liveTokensUsed (r : LiveResult) : Option Nat :=
  match r.usageMetadataTotalTokens with
  | some t => some t
  | none => r.responseMetadataUsageTotalTokens

/-- Observable steps a `callLLM` invocation takes: attempting the live
backend, and producing the mock response. -/
inductive CallStep where
  | liveAttempt
  | mockFallback
deriving DecidableEq

/-- Process environment as read by `src/lib/llm.ts`: `LLM_MODEL`,
`ANTHROPIC_API_KEY` (a missing variable is `none`), and whether the
`new ChatAnthropic` constructor throws during module initialization. -/
structure LLMConfig where
  envLLMModel : Option String
  envAnthropicApiKey : Option String
  initThrows : Bool
deriving DecidableEq

/-- Environment with neither variable set and a non-throwing client
constructor. -/
def defaultLLMConfig : LLMConfig := { envLLMModel := none, envAnthropicApiKey := none, initThrows := false }

/-- `modelName`: `process.env.LLM_MODEL ?? 'claude-3-5-sonnet-20241022'`
(`??` only replaces a missing value, an empty string is kept). -/
def modelName (cfg : LLMConfig) : String :=
  cfg.envLLMModel.getD "claude-3-5-sonnet-20241022"

/-- `useMockLLM = !process.env.ANTHROPIC_API_KEY`: true when the
variable is unset or empty (JavaScript truthiness). -/
def useMockLLM (cfg : LLMConfig) : Bool :=
  match cfg.envAnthropicApiKey with
  | none => true
  | some s => s.isEmpty

/-- Whether the module-level `llm` client is non-null after startup: a
client is constructed only when `useMockLLM` is false, and a throwing
constructor is caught, leaving the client null. -/
def llmInitialized (cfg : LLMConfig) : Bool :=
  !useMockLLM cfg && !cfg.initThrows

/-- The canned mock analysis text of `callLLM` (the template literal of
`src/lib/llm.ts` after `.trim()`), verbatim. -/
def mockResponse : String :=
"Based on the analysis of the provided research papers:

**Age Demographics:**
- Pediatric (0-18): 0% - No studies included children or adolescents
- Young Adults (18-40): 15% - Limited representation
- Middle-aged Adults (40-65): 60% - Well represented
- Elderly (65-75): 45% - Moderate representation
- Very Elderly (>75): 8% - Significantly underrepresented

**Gender Demographics:**
- Male: 42%
- Female: 48%
- Gender not reported: 10%

**Pregnancy Status:**
- Pregnant individuals: 0% - Systematically excluded
- Pregnancy status not mentioned: 100%

**Geographic Distribution:**
- North America: 52% (predominantly USA-based studies)
- Europe: 28% (Western Europe overrepresented)
- Asia: 12% (primarily China and Japan)
- Africa: 0% - No representation
- South America: 3%
- Oceania: 5%

**Critical Blind Spots Identified:**
1. Complete exclusion of pediatric populations (CRITICAL)
2. Systematic exclusion of pregnant individuals (CRITICAL)
3. Severe underrepresentation of very elderly (>75) despite disease relevance (HIGH)
4. Complete absence of African populations (CRITICAL)
5. Minimal representation of young adults 18-40 (MEDIUM)
6. Geographic bias toward Western/developed nations (HIGH)

**Methodological Quality Issues:**
- 15% of studies failed to report demographic breakdowns
- 30% used convenience sampling without demographic stratification
- Only 5% included explicit efforts to recruit underrepresented populations"

/-- The fixed mock `LLMResponse` returned by the mock path. -/
def mockLLMResponse : LLMResponse :=
  { content := mockResponse, model := some "mock-llm-v1", tokensUsed := some 450 }

/-- Duration in milliseconds of the simulated mock-path delay,
`setTimeout(resolve, 500)`: the literal `500`, which reads no
configuration. -/
def mockDelayMs (_cfg : LLMConfig) : Nat := 500

/-- `callLLM` of `src/lib/llm.ts`.  `live` stands for what the awaited
backend invocation would do (`Except.error` when it throws).  The
returned trace records whether the live backend was attempted and
whether the mock response was produced; the second component is the
`LLMResponse` handed to the caller. -/
def callLLM (cfg : LLMConfig) (live : Except String LiveResult)
    (prompt : String) (system : Option String) : List CallStep × LLMResponse :=
  if llmInitialized cfg then
    match live with
    | Except.ok r =>
        ([CallStep.liveAttempt],
          { content := r.content, model := some (modelName cfg),
            tokensUsed := liveTokensUsed r })
    | Except.error _ =>
        ([CallStep.liveAttempt, CallStep.mockFallback], mockLLMResponse)
  else
    ([CallStep.mockFallback], mockLLMResponse)

/-- The tail scanner fails on any text that contains no percent sign. -/
lemma scanAux_no_pct : ∀ (u : List Char), '%' ∉ u → ∀ acc, scanAux acc u = none := by
  intro u
  induction u with
  | nil => intro _ acc; rfl
  | cons c rest ih =>
    intro h acc
    have hc : c ≠ '%' := fun hce => h (hce ▸ List.mem_cons_self c rest)
    have hr : '%' ∉ rest := fun hm => h (List.mem_cons_of_mem c hm)
    by_cases h1 : c = '\n'
    · simp [scanAux, h1]
    · by_cases h2 : c.isDigit
      · simp [scanAux, h1, h2, ih hr]
      · simp [scanAux, h1, h2, hc, ih hr]

/-- A newline before the first percent sign blocks the tail scanner, no
matter what follows: `.` in the regex does not cross line boundaries. -/
lemma scanAux_newline_block : ∀ (u : List Char), '%' ∉ u → '\n' ∈ u →
    ∀ (v : List Char) (acc : Option Nat), scanAux acc (u ++ v) = none := by
  intro u
  induction u with
  | nil => intro _ hn; exact absurd hn (List.not_mem_nil _)
  | cons c rest ih =>
    intro hp hn v acc
    have hc : c ≠ '%' := fun hce => hp (hce ▸ List.mem_cons_self c rest)
    have hr : '%' ∉ rest := fun hm => hp (List.mem_cons_of_mem c hm)
    by_cases h1 : c = '\n'
    · simp [scanAux, h1]
    · have hnr : '\n' ∈ rest := by
        cases List.mem_cons.mp hn with
        | inl he => exact absurd he.symm h1
        | inr hm => exact hm
      by_cases h2 : c.isDigit
      · simp [scanAux, h1, h2, ih hr hnr]
      · simp [scanAux, h1, h2, hc, ih hr hnr]

/-- A label search over text with no percent sign defaults to zero. -/
lemma findLabelPct_no_pct : ∀ (cs : List Char), '%' ∉ cs →
    ∀ label, findLabelPct label cs = 0 := by
  intro cs
  induction cs with
  | nil => intro _ label; rfl
  | cons c rest ih =>
    intro h label
    have hr : '%' ∉ rest := fun hm => h (List.mem_cons_of_mem c hm)
    have hscan : scanAux none (List.drop label.length (c :: rest)) = none :=
      scanAux_no_pct _ (fun hm => h (List.drop_subset _ _ hm)) none
    by_cases hp : label.isPrefixOf (c :: rest)
    · simp [findLabelPct, hp, scanPct, hscan, ih hr]
    · simp [findLabelPct, hp, ih hr]

/-- Shifting the attempted start position by one steps past the head. -/
lemma matchOpt_succ (label : List Char) (c : Char) (rest : List Char) (i : Nat) :
    matchOpt label (c :: rest) (i + 1) = matchOpt label rest i := by
  simp [matchOpt, List.drop_succ_cons]

/-- Unfolding of the list of successful matches over a cons cell. -/
lemma matchResults_cons (label : List Char) (c : Char) (rest : List Char) :
    matchResults label (c :: rest) =
      match matchOpt label (c :: rest) 0 with
      | some v => v :: matchResults label rest
      | none => matchResults label rest := by
  have hcomp : matchOpt label (c :: rest) ∘ Nat.succ = matchOpt label rest := by
    funext i
    exact matchOpt_succ label c rest i
  simp only [matchResults, List.length_cons, List.range_succ_eq_map,
    List.filterMap_cons, List.filterMap_map, hcomp]
  cases matchOpt label (c :: rest) 0 <;> rfl

/-- The extractor returns the value of the leftmost start position at
which the whole pattern succeeds, and `0` when no position succeeds. -/
lemma findLabelPct_eq_matchResults : ∀ (label cs : List Char),
    findLabelPct label cs = (matchResults label cs).headD 0 := by
  intro label cs
  induction cs with
  | nil => rfl
  | cons c rest ih =>
    rw [matchResults_cons]
    by_cases hp : label.isPrefixOf (c :: rest)
    · have h0 : matchOpt label (c :: rest) 0
          = scanPct (List.drop label.length (c :: rest)) := by
        simp [matchOpt, hp]
      cases hscan : scanPct (List.drop label.length (c :: rest)) with
      | some v => simp [findLabelPct, hp, hscan, h0]
      | none => simp [findLabelPct, hp, hscan, h0, ih]
    · have h0 : matchOpt label (c :: rest) 0 = none := by simp [matchOpt, hp]
      simp [findLabelPct, hp, h0, ih]

/-- Inside a digit run, the scanner accumulates the decimal value up to
the closing percent sign. -/
lemma scanAux_digits : ∀ (ds : List Char), (∀ c ∈ ds, c.isDigit) →
    ∀ (a : Nat) (rest : List Char),
    scanAux (some a) (ds ++ '%' :: rest) = some (List.foldl digitStep a ds) := by
  intro ds
  induction ds with
  | nil => intro _ a rest; rfl
  | cons d ds2 ih =>
    intro h a rest
    have hd : d.isDigit := h d (List.mem_cons_self d ds2)
    have h1 : d ≠ '\n' := by
      intro he
      rw [he] at hd
      exact absurd hd (by decide)
    simp [scanAux, h1, hd, ih (fun c hc => h c (List.mem_cons_of_mem d hc))]

/-- A nonempty digit run immediately followed by a percent sign is
matched as a whole and evaluated as its decimal value. -/
lemma scanPct_digits : ∀ (d : Char) (ds : List Char), d.isDigit →
    (∀ c ∈ ds, c.isDigit) → ∀ (rest : List Char),
    scanPct (d :: ds ++ '%' :: rest) = some (digitsVal (d :: ds)) := by
  intro d ds hd h rest
  have h1 : d ≠ '\n' := by
    intro he
    rw [he] at hd
    exact absurd hd (by decide)
  simp [scanPct, scanAux, h1, hd, scanAux_digits ds h, digitsVal]

/-- A list is a Boolean prefix of itself followed by anything. -/
lemma isPrefixOf_append_self : ∀ (l t : List Char), l.isPrefixOf (l ++ t) = true := by
  intro l t
  induction l with
  | nil => simp [List.isPrefixOf]
  | cons a l2 ih => simp [List.isPrefixOf, ih]

/-- When the label occurs at position zero and the tail scan succeeds
there, the extractor returns that value. -/
lemma findLabelPct_of_prefix : ∀ (label cs : List Char) (v : Nat), cs ≠ [] →
    label.isPrefixOf cs = true → scanPct (List.drop label.length cs) = some v →
    findLabelPct label cs = v := by
  intro label cs v hne hp hs
  cases cs with
  | nil => exact absurd rfl hne
  | cons c rest => simp [findLabelPct, hp, hs]

/-- C1: on the documented mock analysis text verbatim,
`parseDemographicResponse` yields age 0/15/60/45/8/0, gender 42/48/10,
pregnancy 0/0/100 and geography 52/28/12/0/8/0, exactly as claimed. -/
theorem C1_mock_values :
    (parseDemographicResponse mockResponse).age
      = [("0-18", 0), ("18-40", 15), ("40-65", 60), ("65-75", 45), (">75", 8), ("not_specified", 0)]
    ∧ (parseDemographicResponse mockResponse).gender
      = [("male", 42), ("female", 48), ("not_specified", 10)]
    ∧ (parseDemographicResponse mockResponse).pregnancyStatus
      = [("pregnant", 0), ("not_pregnant", 0), ("not_specified", 100)]
    ∧ (parseDemographicResponse mockResponse).geography
      = [("North America", 52), ("Europe", 28), ("Asia", 12), ("Africa", 0), ("Other", 8), ("not_specified", 0)] := by
  refine ⟨?_, ?_, ?_, ?_⟩ <;> decide

/-- C2: for every input text the four mappings carry exactly the fixed
enumerated keys, in order, each bound to a total (never missing) value. -/
theorem C2_fixed_keys : ∀ response : String,
    (parseDemographicResponse response).age.map Prod.fst
      = ["0-18", "18-40", "40-65", "65-75", ">75", "not_specified"]
    ∧ (parseDemographicResponse response).gender.map Prod.fst
      = ["male", "female", "not_specified"]
    ∧ (parseDemographicResponse response).pregnancyStatus.map Prod.fst
      = ["pregnant", "not_pregnant", "not_specified"]
    ∧ (parseDemographicResponse response).geography.map Prod.fst
      = ["North America", "Europe", "Asia", "Africa", "Other", "not_specified"] :=
  fun _ => ⟨rfl, rfl, rfl, rfl⟩

/-- C3: on the empty string every percentage is zero and the critical
findings are the canonical five-element list, hence nonempty. -/
theorem C3_empty_input :
    parseDemographicResponse "" = zeroBreakdown
    ∧ zeroBreakdown.criticalFindings.length = 5
    ∧ zeroBreakdown.criticalFindings ≠ [] := by
  refine ⟨by decide, rfl, by decide⟩

/-- C4: whatever the configuration, when the live invocation throws,
`callLLM` returns the mock fallback (canned content, model
`mock-llm-v1`, 450 tokens); being a total function into
`List CallStep × LLMResponse`, it propagates no error. -/
theorem C4_error_fallback : ∀ (cfg : LLMConfig) (err prompt : String)
    (system : Option String),
    (callLLM cfg (Except.error err) prompt system).2 = mockLLMResponse
    ∧ (callLLM cfg (Except.error err) prompt system).2.content = mockResponse
    ∧ (callLLM cfg (Except.error err) prompt system).2.model = some "mock-llm-v1"
    ∧ (callLLM cfg (Except.error err) prompt system).2.tokensUsed = some 450 := by
  intro cfg err prompt system
  cases h : llmInitialized cfg <;> simp [callLLM, h, mockLLMResponse]

/-- C5: with no credential configured (`useMockLLM`), `callLLM` performs
no live attempt — its trace is exactly `[mockFallback]` — and returns
the fixed mock response for every prompt, system instruction and
would-be live outcome. -/
theorem C5_no_credential : ∀ (cfg : LLMConfig) (live : Except String LiveResult)
    (prompt : String) (system : Option String),
    useMockLLM cfg = true →
    callLLM cfg live prompt system = ([CallStep.mockFallback], mockLLMResponse)
    ∧ mockLLMResponse.content = mockResponse
    ∧ mockLLMResponse.model = some "mock-llm-v1"
    ∧ mockLLMResponse.tokensUsed = some 450 := by
  intro cfg live prompt system h
  have hinit : llmInitialized cfg = false := by simp [llmInitialized, h]
  exact ⟨by simp [callLLM, hinit], rfl, rfl, rfl⟩

/-- Witness for C5 at the concrete credential-free environment. -/
theorem C5_no_credential_witness :
    useMockLLM defaultLLMConfig = true
    ∧ callLLM defaultLLMConfig (Except.error "network unreachable") "any prompt" none
      = ([CallStep.mockFallback], mockLLMResponse) :=
  ⟨rfl, (C5_no_credential defaultLLMConfig (Except.error "network unreachable") "any prompt" none rfl).1⟩

/-- C6 counterexample: not every enumerated key is determined by a label
search.  In a text where the labels `not_specified`, `not_pregnant` and
`Other` are each followed on the same line by an integer percent — so a
search (`extractPercentage`) would return 50, 60 and 70 — the parser
still returns 0 for all three keys: they are hardcoded, never searched
(`Other` is instead the sum of the `South America` and `Oceania`
searches). -/
theorem C6_counterexample :
    lookupPct (parseDemographicResponse "not_specified: 50%\nnot_pregnant: 60%\nOther: 70%").age "not_specified" = 0
    ∧ lookupPct (parseDemographicResponse "not_specified: 50%\nnot_pregnant: 60%\nOther: 70%").pregnancyStatus "not_pregnant" = 0
    ∧ lookupPct (parseDemographicResponse "not_specified: 50%\nnot_pregnant: 60%\nOther: 70%").geography "Other" = 0
    ∧ extractPercentage "not_specified: 50%\nnot_pregnant: 60%\nOther: 70%" "not_specified" = 50
    ∧ extractPercentage "not_specified: 50%\nnot_pregnant: 60%\nOther: 70%" "not_pregnant" = 60
    ∧ extractPercentage "not_specified: 50%\nnot_pregnant: 60%\nOther: 70%" "Other" = 70 := by
  refine ⟨?_, ?_, ?_, ?_, ?_, ?_⟩ <;> decide

/-- C6 amended: fourteen of the eighteen enumerated keys are determined
by a case-sensitive prose-label search over the text (value of that
key equals `extractPercentage` at its label), defaulting to zero when no
label pattern matches — in particular a text with no percent sign yields
the all-zero breakdown; `age.not_specified`,
`pregnancyStatus.not_pregnant` and `geography.not_specified` are the
constant zero for every input text, never searched; and
`geography.Other` is the sum of the `South America` and `Oceania`
searches, not a search for its own label. -/
theorem C6_amended : ∀ text : String,
    ('%' ∉ text.data → parseDemographicResponse text = zeroBreakdown)
    ∧ lookupPct (parseDemographicResponse text).age "0-18" = extractPercentage text "Pediatric"
    ∧ lookupPct (parseDemographicResponse text).age "18-40" = extractPercentage text "Young Adults"
    ∧ lookupPct (parseDemographicResponse text).age "40-65" = extractPercentage text "Middle-aged Adults"
    ∧ lookupPct (parseDemographicResponse text).age "65-75" = extractPercentage text "Elderly (65-75)"
    ∧ lookupPct (parseDemographicResponse text).age ">75" = extractPercentage text "Very Elderly"
    ∧ lookupPct (parseDemographicResponse text).gender "male" = extractPercentage text "Male"
    ∧ lookupPct (parseDemographicResponse text).gender "female" = extractPercentage text "Female"
    ∧ lookupPct (parseDemographicResponse text).gender "not_specified" = extractPercentage text "Gender not reported"
    ∧ lookupPct (parseDemographicResponse text).pregnancyStatus "pregnant" = extractPercentage text "Pregnant individuals"
    ∧ lookupPct (parseDemographicResponse text).pregnancyStatus "not_specified" = extractPercentage text "Pregnancy status not mentioned"
    ∧ lookupPct (parseDemographicResponse text).geography "North America" = extractPercentage text "North America"
    ∧ lookupPct (parseDemographicResponse text).geography "Europe" = extractPercentage text "Europe"
    ∧ lookupPct (parseDemographicResponse text).geography "Asia" = extractPercentage text "Asia"
    ∧ lookupPct (parseDemographicResponse text).geography "Africa" = extractPercentage text "Africa"
    ∧ lookupPct (parseDemographicResponse text).geography "Other"
      = extractPercentage text "South America" + extractPercentage text "Oceania"
    ∧ lookupPct (parseDemographicResponse text).age "not_specified" = 0
    ∧ lookupPct (parseDemographicResponse text).pregnancyStatus "not_pregnant" = 0
    ∧ lookupPct (parseDemographicResponse text).geography "not_specified" = 0 := by
  intro text
  refine ⟨fun h => ?_, rfl, rfl, rfl, rfl, rfl, rfl, rfl, rfl, rfl, rfl, rfl, rfl, rfl, rfl, rfl, rfl, rfl, rfl⟩
  simp [parseDemographicResponse, zeroBreakdown, extractPercentage,
    findLabelPct_no_pct text.data h]

/-- Witness for C6 amended on a concrete percent-free text. -/
theorem C6_amended_witness :
    ('%' ∉ "no percents here".data)
    ∧ parseDemographicResponse "no percents here" = zeroBreakdown :=
  ⟨by decide, (C6_amended "no percents here").1 (by decide)⟩

/-- C7 counterexample: in `"Male: -5%"` the label `Male` is followed by
the out-of-range percentage `-5`, yet the extracted value is `5`, not
the value written in the text: the digits-only pattern drops the minus
sign. -/
theorem C7_counterexample :
    lookupPct (parseDemographicResponse "Male: -5%").gender "male" = 5
    ∧ ((5 : Int) ≠ (-5 : Int)) :=
  ⟨by decide, by decide⟩

/-- C7 amended: any digit run directly after a label is accepted as-is
with no clamping or range validation — in particular values above 100,
such as 150 — but a minus sign is never part of the match, so negative
values cannot be extracted, and every value in the output is a
non-negative integer. -/
theorem C7_amended :
    (∀ (label ds : List Char), ds ≠ [] → (∀ c ∈ ds, c.isDigit) →
      findLabelPct label (label ++ ds ++ ['%']) = digitsVal ds)
    ∧ lookupPct (parseDemographicResponse "Male: 150%").gender "male" = 150
    ∧ (∀ (text : String) (kv : String × Nat),
        kv ∈ (parseDemographicResponse text).age ++ (parseDemographicResponse text).gender
          ++ (parseDemographicResponse text).pregnancyStatus
          ++ (parseDemographicResponse text).geography →
        (0 : Int) ≤ (kv.2 : Int)) := by
  refine ⟨?_, by decide, fun text kv _ => Int.natCast_nonneg kv.2⟩
  intro label ds hne hdig
  obtain ⟨d, ds2, rfl⟩ := List.exists_cons_of_ne_nil hne
  apply findLabelPct_of_prefix
  · simp
  · rw [List.append_assoc]
    exact isPrefixOf_append_self label (d :: ds2 ++ ['%'])
  · rw [List.append_assoc, List.drop_left]
    exact scanPct_digits d ds2 (hdig d (List.mem_cons_self d ds2))
      (fun c hc => hdig c (List.mem_cons_of_mem d hc)) []

/-- Witness for C7 amended: the digit run `150` after the label `Male`
is extracted as 150, and the corresponding output entry is
non-negative. -/
theorem C7_amended_witness :
    (['1', '5', '0'] ≠ ([] : List Char))
    ∧ (∀ c ∈ (['1', '5', '0'] : List Char), c.isDigit)
    ∧ findLabelPct "Male".data ("Male".data ++ ['1', '5', '0'] ++ ['%'])
      = digitsVal ['1', '5', '0']
    ∧ (("male", 150) : String × Nat) ∈ (parseDemographicResponse "Male: 150%").age
        ++ (parseDemographicResponse "Male: 150%").gender
        ++ (parseDemographicResponse "Male: 150%").pregnancyStatus
        ++ (parseDemographicResponse "Male: 150%").geography
    ∧ (0 : Int) ≤ (((("male", 150) : String × Nat)).2 : Int) :=
  ⟨by decide, by decide,
    C7_amended.1 "Male".data ['1', '5', '0'] (by decide) (by decide),
    by decide,
    C7_amended.2.2 "Male: 150%" ("male", 150) (by decide)⟩

/-- C8 counterexample: no configuration input changes the mock-path
delay — it is the hardcoded literal `setTimeout(resolve, 500)`, reading
no environment variable. -/
theorem C8_counterexample :
    ¬ ∃ cfg : LLMConfig, mockDelayMs cfg ≠ mockDelayMs defaultLLMConfig :=
  fun ⟨_, h⟩ => h rfl

/-- C8 amended: the simulated mock-path delay is the fixed value 500 ms
for every configuration — short (hundreds of milliseconds) but not
configurable. -/
theorem C8_amended : ∀ cfg : LLMConfig,
    mockDelayMs cfg = 500 ∧ 100 ≤ mockDelayMs cfg ∧ mockDelayMs cfg ≤ 900 :=
  fun _ => ⟨rfl, by norm_num [mockDelayMs], by norm_num [mockDelayMs]⟩

/-- C9: for every input text the geography `Other` value is the sum of
the `South America` and `Oceania` label searches; the literal label
`Other` in the text contributes nothing (it is never searched), as the
two concrete evaluations show. -/
theorem C9_other_sum : ∀ text : String,
    lookupPct (parseDemographicResponse text).geography "Other"
      = extractPercentage text "South America" + extractPercentage text "Oceania"
    ∧ lookupPct (parseDemographicResponse "Other: 70%").geography "Other" = 0
    ∧ lookupPct (parseDemographicResponse "- South America: 3%\n- Oceania: 5%").geography "Other" = 8 :=
  fun _ => ⟨rfl, by decide, by decide⟩

/-- C10: the extractor returns the integer of the leftmost start
position at which the whole pattern succeeds (`matchResults` lists the
successful positions left to right; a label occurrence whose percent
figure sits behind a newline contributes no element), and a newline
between a position and every later percent sign makes the scan at that
position fail — so a label all of whose percent figures are
newline-separated yields 0, as the concrete `"Male\n42%"` run shows. -/
theorem C10_leftmost_same_line :
    (∀ (label cs : List Char), findLabelPct label cs = (matchResults label cs).headD 0)
    ∧ (∀ (u v : List Char) (acc : Option Nat), '%' ∉ u → '\n' ∈ u →
        scanAux acc (u ++ v) = none)
    ∧ extractPercentage "Male\n42%" "Male" = 0
    ∧ extractPercentage "Male 7% Male 9%" "Male" = 7 := by
  refine ⟨findLabelPct_eq_matchResults, ?_, by decide, by decide⟩
  intro u v acc hp hn
  exact scanAux_newline_block u hp hn v acc

/-- Witness for C10 at a concrete newline-blocked scan. -/
theorem C10_leftmost_same_line_witness :
    ('%' ∉ (['a', '\n'] : List Char)) ∧ ('\n' ∈ (['a', '\n'] : List Char))
    ∧ scanAux none (['a', '\n'] ++ ['4', '2', '%']) = none :=
  ⟨by decide, by decide,
    C10_leftmost_same_line.2.1 ['a', '\n'] ['4', '2', '%'] none (by decide) (by decide)⟩
